import Mathlib

/-!
Verification development for the point-store layer of `Carte_des_fruits.py`
(shared fruit-tree / mushroom map backed by a remote spreadsheet).

Python strings are modelled as `List Char` (`Str`).  Sheet cell values are
modelled as raw strings throughout: the model does not reproduce client-side
numericisation of cells by the spreadsheet library, nor pandas dtype
coercion; every cell read back is the string that was stored.
-/

set_option maxHeartbeats 1000000

namespace CarteDesFruits

/-- Python strings, modelled as lists of characters. -/
abbrev Str := List Char

/-- Whitespace recognised by Python's `str.strip()` / `float()` stripping,
restricted to the characters that can occur in this development: ASCII
whitespace plus the no-break spaces (U+00A0, U+202F). -/
def pyIsSpace (c : Char) : Bool :=
  c = ' ' || c = '\t' || c = '\n' || c = '\r' ||
  c = (Char.ofNat 11) || c = (Char.ofNat 12) ||
  c = (Char.ofNat 0xa0) || c = (Char.ofNat 0x202f)

/-- Python `str.strip()`: drop leading and trailing whitespace. -/
def pyStrip (s : Str) : Str :=
  ((s.dropWhile pyIsSpace).reverse.dropWhile pyIsSpace).reverse

/-- Python `str.split(sep)` for a one-character separator `sep`:
`"".split("|") = [""]`, `"a|b".split("|") = ["a","b"]`, `"|".split("|") = ["",""]`. -/
def pySplitOn (sep : Char) : Str → List Str
  | [] => [[]]
  | c :: rest =>
    match pySplitOn sep rest with
    | [] => [[]]
    | t :: ts => if c = sep then [] :: t :: ts else (c :: t) :: ts

/-- Python `sep.join(xs)` for a one-character separator. -/
def pyJoin (sep : Char) : List Str → Str
  | [] => []
  | [x] => x
  | x :: y :: t => x ++ sep :: pyJoin sep (y :: t)

/-- Source `_serialize_seasons(lst)`: `"|".join(lst or [])`. -/
def serialize_seasons (lst : List Str) : Str :=
  pyJoin '|' lst

/-- Source `_parse_seasons(s)`: returns `[]` when the input is blank
(`pd.isna(s) or not str(s).strip()`), otherwise strips every token produced
by splitting on `"|"`.  The `pd.isna` branch (a missing cell) is outside the
string model; a blank string takes the same branch. -/
def parse_seasons (s : Str) : List Str :=
  if pyStrip s = [] then []
  else (pySplitOn '|' s).map pyStrip

/-- Result of Python's builtin `float(s)` on a string: either a finite value
(kept exact, as the decimal `num / 10 ^ pow10`) or one of the non-finite
values `inf`/`-inf`/`nan`, which `float` accepts and returns without error. -/
inductive PyFloat where
  | finite (num : Int) (pow10 : Nat)
  | inf (neg : Bool)
  | nan
  deriving DecidableEq

/-- Python `math.isfinite` on a parsed float. -/
def PyFloat.isFinite : PyFloat → Bool
  | .finite _ _ => true
  | _ => false

/-- The exact rational value of a finite parsed float. -/
def PyFloat.toRat : PyFloat → Option ℚ
  | .finite n k => some ((n : ℚ) / (10 : ℚ) ^ k)
  | _ => none

/-- Consume one optional leading sign; returns (negative?, rest). -/
def stripSign : Str → Bool × Str
  | '+' :: r => (false, r)
  | '-' :: r => (true, r)
  | s => (false, s)

/-- Numeric value of a digit string. -/
def natVal (s : Str) : Nat :=
  s.foldl (fun acc c => acc * 10 + (c.toNat - 48)) 0

/-- Nonempty and all decimal digits. -/
def isDigits (s : Str) : Bool :=
  !s.isEmpty && s.all Char.isDigit

/-- ASCII lowercasing of a string. -/
def toLowerStr (s : Str) : Str := s.map Char.toLower

/-- Parse the mantissa part (`123`, `123.`, `.5`, `1.5`) into its digit value
and the number of fractional digits: value `v / 10 ^ k`. -/
def parseMantissa (s : Str) : Option (Nat × Nat) :=
  match pySplitOn '.' s with
  | [a] => if isDigits a then some (natVal a, 0) else none
  | [a, b] =>
    if (!a.isEmpty || !b.isEmpty) && a.all Char.isDigit && b.all Char.isDigit then
      some (natVal (a ++ b), b.length)
    else none
  | _ => none

/-- Assemble a finite float from sign, mantissa digits `v`, fractional digit
count `k` and decimal exponent `e`: the exact value `±v * 10 ^ (e - k)`. -/
def mkFinite (neg : Bool) (v : Nat) (k : Nat) (e : Int) : PyFloat :=
  let sv : Int := if neg then -(v : Int) else (v : Int)
  let t : Int := e - (k : Int)
  if 0 ≤ t then .finite (sv * (10 : Int) ^ t.toNat) 0
  else .finite sv (-t).toNat

/-- Parse the exponent part after `e`: optional sign then digits. -/
def parseExpPart (s : Str) : Option Int :=
  if isDigits (stripSign s).2 then
    some (if (stripSign s).1 then -(natVal (stripSign s).2 : Int)
          else (natVal (stripSign s).2 : Int))
  else none

/-- Core of Python `float` after sign removal and lowercasing: named
constants `inf`/`infinity`/`nan`, else mantissa with optional exponent. -/
def pyFloatCore (neg : Bool) (r : Str) : Option PyFloat :=
  if r = "inf".data ∨ r = "infinity".data then some (.inf neg)
  else if r = "nan".data then some .nan
  else
    match pySplitOn 'e' r with
    | [m] => (parseMantissa m).map (fun vk => mkFinite neg vk.1 vk.2 0)
    | [m, ep] =>
      match parseMantissa m, parseExpPart ep with
      | some vk, some e => some (mkFinite neg vk.1 vk.2 e)
      | _, _ => none
    | _ => none

/-- Python's builtin `float` applied to a string: strip whitespace, optional
sign, then named constant or decimal literal.  `none` models the
`ValueError` raised on unparseable input.  (PEP 515 underscore digit
separators are not modelled; no input in this development uses them.) -/
def pyFloatParse (x : Str) : Option PyFloat :=
  pyFloatCore (stripSign (pyStrip x)).1 (toLowerStr (stripSign (pyStrip x)).2)

/-- Source `_to_float(x)` cleaning pipeline: `str(x).strip()`, remove every
narrow no-break space (U+202F) and every ordinary space, then replace `,`
by `.`. -/
def cleanCoord (x : Str) : Str :=
  (((pyStrip x).filter (fun c => c != Char.ofNat 0x202f)).filter
      (fun c => c != ' ')).map
    (fun c => if c = ',' then '.' else c)

/-- Source `_to_float(x)`: clean the raw text then call `float` on it;
`none` models the exception raised on unparseable input. -/
def to_float (x : Str) : Option PyFloat :=
  pyFloatParse (cleanCoord x)

/-- Recognizer for the string grammar accepted by Python `float`:
mantissa shape, optional exponent, or a named constant. -/
def mantissaOK (s : Str) : Bool :=
  match pySplitOn '.' s with
  | [a] => isDigits a
  | [a, b] => (!a.isEmpty || !b.isEmpty) && a.all Char.isDigit && b.all Char.isDigit
  | _ => false

/-- Recognizer for the exponent part: optional sign then digits. -/
def expPartOK (s : Str) : Bool := isDigits (stripSign s).2

/-- Grammar acceptance after sign removal and lowercasing. -/
def floatGrammarCore (r : Str) : Bool :=
  (r == "inf".data) || (r == "infinity".data) || (r == "nan".data) ||
    (match pySplitOn 'e' r with
     | [m] => mantissaOK m
     | [m, ep] => mantissaOK m && expPartOK ep
     | _ => false)

/-- Whether a string is accepted by Python `float` (stripped, signed,
lowercased, then checked against the grammar). -/
def floatGrammarOK (x : Str) : Bool :=
  floatGrammarCore (toLowerStr (stripSign (pyStrip x)).2)

/-- One row of the dataframe returned by `_read_df()`: raw cell strings for
the canonical columns, with `_read_df`'s defaults already applied
(`is_deleted` becomes "0" and `seasons` becomes "" when the whole column is
missing; a missing individual cell reads back as ""). -/
structure Row where
  id : Str
  name : Str
  lat : Str
  lon : Str
  seasons : Str
  is_deleted : Str
  updated_at : Str
  deriving DecidableEq

/-- A domain record produced by `load_items()`. -/
structure Item where
  id : Str
  name : Str
  lat : PyFloat
  lon : PyFloat
  seasons : List Str
  deriving DecidableEq

/-- Loop body of `load_items` (source lines 117-130): parse both coordinates
inside `try`, skip the row on failure (`except Exception: continue`), else
build the domain record. -/
def rowItem (r : Row) : Option Item :=
  match to_float r.lat, to_float r.lon with
  | some la, some lo =>
    some { id := r.id, name := r.name, lat := la, lon := lo,
           seasons := parse_seasons r.seasons }
  | _, _ => none

/-- Source `load_items()`: keep the rows whose raw `is_deleted` cell differs
from the string "1" (`df[df["is_deleted"] != "1"]`), then run the row loop. -/
def load_items (df : List Row) : List Item :=
  (df.filter (fun r => r.is_deleted != ("1").data)).filterMap rowItem

/-- Modelled from the spec: `normalize_deleted_flag(raw)` (§4.1), which has
no counterpart in the source.  Following the spec's words: accept
numeric-looking strings with stray separators/locale punctuation (the same
tolerant cleaning-and-parse as the coordinate parser), reduce to the
canonical digit ("0" for value zero, "1" for a nonzero value); unparseable
input defaults to "0". -/
def normalize_deleted_flag_spec (raw : Str) : Str :=
  match to_float raw with
  | some (.finite n _) => if n = 0 then ("0").data else ("1").data
  | _ => ("0").data

/-- The worksheet as returned by `ws.get_all_values()`: the header row
followed by the data rows, each a list of raw cell strings (gspread pads
the result to a rectangle; a short row reads missing cells as ""). -/
abbrev Sheet := List (List Str)

/-- One remote write issued through the gateway: either a gspread
`update_cell` (one cell, 1-indexed row and column) or a single multi-cell
update of several columns of one row (the shape the spec asserts). -/
inductive WriteOp where
  | updateCell (row col : Nat) (v : Str)
  | updateCells (row : Nat) (cells : List (Nat × Str))
  deriving DecidableEq

/-- Python `list.index(x)`: position of the first occurrence; `none` models
the `ValueError` branch. -/
def pyIndexOf : List Str → Str → Option Nat
  | [], _ => none
  | y :: t, x => if y = x then some 0 else (pyIndexOf t x).map (· + 1)

/-- Pad a row with empty cells up to length `n`. -/
def padTo (row : List Str) (n : Nat) : List Str :=
  row ++ List.replicate (n - row.length) []

/-- gspread `ws.update_cell(r, c, v)`: write one cell at 1-indexed `(r, c)`,
padding the row if it is shorter than `c`. -/
def update_cell (tbl : Sheet) (r c : Nat) (v : Str) : Sheet :=
  tbl.set (r - 1) ((padTo (tbl.getD (r - 1) []) c).set (c - 1) v)

/-- Observable outcome of one `soft_delete_item` call: the final sheet, the
remote writes issued, whether the cache was invalidated, the UI signals
(`st.warning` / `st.error`), the exception carried out (`none`: the function
body contains no raise), and the Python return value (`None` on every
path, hence the constant `none`). -/
structure DelOut where
  sheet : Sheet
  writes : List WriteOp
  invalidated : Bool
  warned : Bool
  errored : Bool
  exn : Option Str
  ret : Option Bool
  deriving DecidableEq

/-- Scan loop of `soft_delete_item` (source lines 163-169): find the first
data row whose id-column cell equals `item_id`; on a match issue two
single-cell updates (`is_deleted` to "1", `updated_at` to `now`),
invalidate the cache and return; if the scan ends, show the warning.
`rIdx` is the index into `values` (1 for the first data row; the sheet cell
row is `rIdx + 1` because gspread is 1-indexed). -/
def softDeleteLoop (idC dC uC : Nat) (item_id now : Str) (tbl : Sheet) :
    Nat → List (List Str) → DelOut
  | _, [] => ⟨tbl, [], false, true, false, none, none⟩
  | rIdx, row :: rest =>
    if row.getD idC [] = item_id then
      ⟨update_cell (update_cell tbl (rIdx + 1) (dC + 1) (("1").data))
          (rIdx + 1) (uC + 1) now,
       [WriteOp.updateCell (rIdx + 1) (dC + 1) (("1").data),
        WriteOp.updateCell (rIdx + 1) (uC + 1) now],
       true, false, false, none, none⟩
    else softDeleteLoop idC dC uC item_id now tbl (rIdx + 1) rest

/-- Source `soft_delete_item(item_id)` (lines 149-169) acting on the
snapshot `values = ws.get_all_values()` (header included): empty sheet
returns immediately; a missing `id`/`is_deleted`/`updated_at` column takes
the `st.error` branch; otherwise the scan loop runs from the first data
row.  The function returns `None` on every path and raises nothing. -/
def soft_delete_item (tbl : Sheet) (item_id now : Str) : DelOut :=
  match tbl with
  | [] => ⟨tbl, [], false, false, false, none, none⟩
  | headers :: rows =>
    match pyIndexOf headers (("id").data), pyIndexOf headers (("is_deleted").data),
          pyIndexOf headers (("updated_at").data) with
    | some idC, some dC, some uC =>
      softDeleteLoop idC dC uC item_id now (headers :: rows) 1 rows
    | _, _, _ => ⟨headers :: rows, [], false, false, true, none, none⟩

/-- Cell of a record produced by `ws.get_all_records()` (a dict keyed by the
header) read with a default, as `_read_df`/`load_items` do: the value at the
column's header position, or the default when the column is absent. -/
def lookupCell (hdr row : List Str) (nameCol : Str) (dflt : Str) : Str :=
  match pyIndexOf hdr nameCol with
  | some i => row.getD i []
  | none => dflt

/-- `ws.get_all_records()` followed by `_read_df`'s dataframe defaults
(lines 95-107): an empty or header-only sheet yields the empty dataframe;
otherwise each data row becomes a `Row` keyed by the header.  When the
`is_deleted` column is absent the source adds a constant "0" column, and
`seasons` an empty one; `id`/`name` are read with `.get(..., "")`.  An
absent `lat`/`lon` column raises `KeyError` inside the row loop's
`try`, which skips the row — observationally the same as the default ""
whose parse fails, which is how it is modelled here. -/
def recordsToDf : Sheet → List Row
  | [] => []
  | hdr :: rows =>
    rows.map fun r =>
      { id := lookupCell hdr r (("id").data) []
        name := lookupCell hdr r (("name").data) []
        lat := lookupCell hdr r (("lat").data) []
        lon := lookupCell hdr r (("lon").data) []
        seasons := lookupCell hdr r (("seasons").data) []
        is_deleted := lookupCell hdr r (("is_deleted").data) (("0").data)
        updated_at := lookupCell hdr r (("updated_at").data) [] }

/-- Process state for the cache model: the remote worksheet, the
`st.cache_data` entry for `_read_df` (the cached dataframe with the time it
was stored; `none` after `st.cache_data.clear()`), and the current time in
seconds. -/
structure Sys where
  sheet : Sheet
  cache : Option (List Row × Nat)
  now : Nat
  deriving DecidableEq

/-- `_read_df()` under `@st.cache_data(ttl=10)` (lines 95-107): a cached
value younger than 10 seconds is returned with no remote read; otherwise a
fresh read is performed and cached.  Returns the dataframe, the new state,
and whether a remote read was issued. -/
def read_df (s : Sys) : List Row × Sys × Bool :=
  match s.cache with
  | some (df, ts) =>
    if s.now - ts < 10 then (df, s, false)
    else (recordsToDf s.sheet,
          { s with cache := some (recordsToDf s.sheet, s.now) }, true)
  | none =>
    (recordsToDf s.sheet,
     { s with cache := some (recordsToDf s.sheet, s.now) }, true)

/-- `load_items()` at the system level (the spec's `list_active()`):
`_read_df` then the filtering row pipeline.  Returns the records, the new
state, and whether a remote read was issued. -/
def list_active (s : Sys) : List Item × Sys × Bool :=
  (load_items (read_df s).1, (read_df s).2.1, (read_df s).2.2)

/-- Source `add_item` (lines 133-147) at the system level: append the row
`[uuid, name, lat, lon, serialize_seasons(seasons), "0", now]` at the end
of the sheet, then `_invalidate_cache()` (`st.cache_data.clear()`).  The
generated uuid, the decimal strings of the two floats, and the timestamp
enter as parameters. -/
def add_item (s : Sys) (uuid name latS lonS : Str) (seasons : List Str)
    (nowIso : Str) : Sys :=
  { s with
    sheet := s.sheet ++ [[uuid, name, latS, lonS, serialize_seasons seasons,
                          ("0").data, nowIso]],
    cache := none }

/-- `soft_delete_item` at the system level: run the scan on the sheet; the
cache is cleared exactly when a row was found and updated (line 167). -/
def soft_delete_sys (s : Sys) (item_id nowIso : Str) : Sys × DelOut :=
  (⟨(soft_delete_item s.sheet item_id nowIso).sheet,
    if (soft_delete_item s.sheet item_id nowIso).invalidated then none
    else s.cache,
    s.now⟩,
   soft_delete_item s.sheet item_id nowIso)

/-- Time passing between interactions. -/
def tick (s : Sys) (dt : Nat) : Sys := { s with now := s.now + dt }

/-- Splitting never yields the empty list of chunks. -/
theorem pySplitOn_ne_nil (sep : Char) (s : Str) : pySplitOn sep s ≠ [] := by
  cases s with
  | nil => simp [pySplitOn]
  | cons c rest =>
    simp only [pySplitOn]
    cases h : pySplitOn sep rest with
    | nil => simp
    | cons t ts => by_cases hc : c = sep <;> simp [hc]

/-- A chunk without the separator splits into itself. -/
theorem pySplitOn_no_sep (sep : Char) (x : Str) (h : sep ∉ x) : pySplitOn sep x = [x] := by
  induction x with
  | nil => rfl
  | cons c rest ih =>
    have hc : c ≠ sep := fun e => h (e ▸ List.mem_cons_self c rest)
    have hr : sep ∉ rest := fun m => h (List.mem_cons_of_mem c m)
    simp only [pySplitOn, ih hr]
    simp [hc]

/-- Splitting past a leading separator-free chunk. -/
theorem pySplitOn_append_sep (sep : Char) (x s : Str) (h : sep ∉ x) :
    pySplitOn sep (x ++ sep :: s) = x :: pySplitOn sep s := by
  induction x with
  | nil =>
    simp only [List.nil_append, pySplitOn]
    cases hs : pySplitOn sep s with
    | nil => exact absurd hs (pySplitOn_ne_nil sep s)
    | cons t ts => simp
  | cons c x ih =>
    have hc : c ≠ sep := fun e => h (e ▸ List.mem_cons_self c x)
    have hx : sep ∉ x := fun m => h (List.mem_cons_of_mem c m)
    simp only [List.cons_append, pySplitOn, ih hx]
    simp [hc]
    rw [ih hx]

/-- `pySplitOn` undoes `pyJoin` on a nonempty list of separator-free chunks. -/
theorem pySplitOn_pyJoin (sep : Char) :
    ∀ xs : List Str, xs ≠ [] → (∀ x ∈ xs, sep ∉ x) →
      pySplitOn sep (pyJoin sep xs) = xs
  | [], h, _ => absurd rfl h
  | [x], _, hh => by
    simpa [pyJoin] using pySplitOn_no_sep sep x (hh x (by simp))
  | x :: y :: t, _, hh => by
    have h1 : sep ∉ x := hh x (by simp)
    rw [pyJoin, pySplitOn_append_sep sep x _ h1,
        pySplitOn_pyJoin sep (y :: t) (by simp)
          (fun z hz => hh z (List.mem_cons_of_mem x hz))]

/-- A char not matching the predicate survives `dropWhile`. -/
theorem mem_dropWhile_of_not {p : Char → Bool} {c : Char} (hc : p c = false) :
    ∀ {l : Str}, c ∈ l → c ∈ l.dropWhile p
  | [], h => absurd h (List.not_mem_nil c)
  | a :: l, h => by
    by_cases ha : p a
    · rw [List.dropWhile_cons, if_pos ha]
      rcases List.mem_cons.1 h with rfl | hm
      · rw [ha] at hc; cases hc
      · exact mem_dropWhile_of_not hc hm
    · rw [List.dropWhile_cons, if_neg ha]; exact h

/-- A string containing a non-whitespace char does not strip to empty. -/
theorem pyStrip_ne_nil {c : Char} {s : Str} (hm : c ∈ s) (hc : pyIsSpace c = false) :
    pyStrip s ≠ [] := by
  have h1 : c ∈ s.dropWhile pyIsSpace := mem_dropWhile_of_not hc hm
  have h2 : c ∈ (s.dropWhile pyIsSpace).reverse := List.mem_reverse.2 h1
  have h3 : c ∈ (s.dropWhile pyIsSpace).reverse.dropWhile pyIsSpace :=
    mem_dropWhile_of_not hc h2
  intro e
  have h4 : c ∈ pyStrip s := List.mem_reverse.2 h3
  rw [e] at h4
  exact List.not_mem_nil c h4

/-- Stripping a list of already-stripped tokens is the identity. -/
theorem map_pyStrip_id : ∀ {S : List Str}, (∀ t ∈ S, pyStrip t = t) → S.map pyStrip = S
  | [], _ => rfl
  | x :: S, h => by
    rw [List.map_cons, h x (List.mem_cons_self x S),
        map_pyStrip_id (fun t ht => h t (List.mem_cons_of_mem x ht))]

/-- The separator occurs in a join of at least two chunks. -/
theorem mem_pyJoin_sep (sep : Char) (x y : Str) (t : List Str) :
    sep ∈ pyJoin sep (x :: y :: t) := by
  rw [pyJoin]
  exact List.mem_append.2 (Or.inr (List.mem_cons_self _ _))

/-- Claim C5 (counterexample): the singleton list holding the empty tag
satisfies the claim's side conditions (no `|`, no leading/trailing
whitespace) yet does not round-trip: `serialize_seasons [""] = ""`, and
`parse_seasons ""` is `[]`, not `[""]`. -/
theorem seasons_roundtrip_counterexample :
    ('|' ∉ ([] : Str)) ∧ pyStrip ([] : Str) = ([] : Str) ∧
      parse_seasons (serialize_seasons [([] : Str)]) ≠ [([] : Str)] := by
  decide

/-- Claim C5 (amended): `parse_seasons (serialize_seasons S) = S` for every
sequence `S` of tags containing no `|` and no leading/trailing whitespace,
provided `S` is not the singleton sequence holding the empty tag (that one
serializes to `""`, which parses back to `[]`). -/
theorem seasons_roundtrip_amended (S : List Str) (hsep : ∀ t ∈ S, '|' ∉ t)
    (hstrip : ∀ t ∈ S, pyStrip t = t) (hne : S ≠ [[]]) :
    parse_seasons (serialize_seasons S) = S := by
  match S with
  | [] => rfl
  | [x] =>
    by_cases hx : x = ([] : Str)
    · subst hx; exact absurd rfl hne
    · have hsx : pyStrip x = x := hstrip x (by simp)
      have hser : serialize_seasons [x] = x := rfl
      have hnn : ¬(pyStrip (serialize_seasons [x]) = []) := by
        rw [hser, hsx]; exact hx
      rw [parse_seasons, if_neg hnn, hser,
          pySplitOn_no_sep '|' x (hsep x (by simp))]
      simp [hsx]
  | x :: y :: t =>
    have hmem : '|' ∈ pyJoin '|' (x :: y :: t) := mem_pyJoin_sep '|' x y t
    have hns : ¬(pyStrip (serialize_seasons (x :: y :: t)) = []) :=
      pyStrip_ne_nil hmem (by decide)
    rw [parse_seasons, if_neg hns, serialize_seasons,
        pySplitOn_pyJoin '|' (x :: y :: t) (by simp) hsep]
    exact map_pyStrip_id hstrip

/-- Claim C5 (witness): the amended round-trip at the concrete sequence
`["automne", "hiver"]`. -/
theorem seasons_roundtrip_witness :
    (∀ t ∈ ["automne".data, "hiver".data], '|' ∉ t) ∧
      (∀ t ∈ ["automne".data, "hiver".data], pyStrip t = t) ∧
      (["automne".data, "hiver".data] ≠ [([] : Str)]) ∧
      parse_seasons (serialize_seasons ["automne".data, "hiver".data]) =
        ["automne".data, "hiver".data] :=
  ⟨by decide, by decide, by decide,
    seasons_roundtrip_amended _ (by decide) (by decide) (by decide)⟩

/-- The mantissa parser fails exactly when the mantissa grammar rejects. -/
theorem parseMantissa_none_iff (m : Str) :
    parseMantissa m = none ↔ mantissaOK m = false := by
  unfold parseMantissa mantissaOK
  cases pySplitOn '.' m with
  | nil => simp
  | cons a t =>
    cases t with
    | nil => by_cases h : isDigits a <;> simp [h]
    | cons b t2 =>
      cases t2 with
      | nil =>
        by_cases h : ((!a.isEmpty || !b.isEmpty) && a.all Char.isDigit &&
            b.all Char.isDigit) = true <;> simp [h]
      | cons c t3 => simp

/-- The exponent parser fails exactly when the exponent grammar rejects. -/
theorem parseExpPart_none_iff (s : Str) :
    parseExpPart s = none ↔ expPartOK s = false := by
  unfold parseExpPart expPartOK
  by_cases h : isDigits (stripSign s).2 <;> simp [h]

/-- A successful mantissa parse implies grammar acceptance. -/
theorem mantissaOK_of_some {m : Str} {vk : Nat × Nat} (h : parseMantissa m = some vk) :
    mantissaOK m = true := by
  cases hb : mantissaOK m with
  | false => rw [(parseMantissa_none_iff m).2 hb] at h; cases h
  | true => rfl

/-- A successful exponent parse implies grammar acceptance. -/
theorem expPartOK_of_some {s : Str} {e : Int} (h : parseExpPart s = some e) :
    expPartOK s = true := by
  cases hb : expPartOK s with
  | false => rw [(parseExpPart_none_iff s).2 hb] at h; cases h
  | true => rfl

/-- The float parser core fails exactly when the grammar core rejects. -/
theorem pyFloatCore_none_iff (neg : Bool) (r : Str) :
    pyFloatCore neg r = none ↔ floatGrammarCore r = false := by
  unfold pyFloatCore floatGrammarCore
  by_cases h1 : r = "inf".data ∨ r = "infinity".data
  · rw [if_pos h1]
    rcases h1 with h | h <;> subst h <;> simp
  · rw [if_neg h1]
    have e1 : (r == "inf".data) = false :=
      beq_eq_false_iff_ne.2 (fun e => h1 (Or.inl e))
    have e2 : (r == "infinity".data) = false :=
      beq_eq_false_iff_ne.2 (fun e => h1 (Or.inr e))
    by_cases h3 : r = "nan".data
    · rw [if_pos h3]
      simp [e1, e2, h3]
    · rw [if_neg h3]
      have e3 : (r == "nan".data) = false := beq_eq_false_iff_ne.2 h3
      rw [e1, e2, e3]
      simp only [Bool.false_or]
      cases hs : pySplitOn 'e' r with
      | nil => simp
      | cons m t =>
        cases t with
        | nil =>
          simp [Option.map_eq_none', parseMantissa_none_iff]
        | cons ep t2 =>
          cases t2 with
          | nil =>
            dsimp only
            cases hm : parseMantissa m with
            | none =>
              simp [(parseMantissa_none_iff m).1 hm]
            | some vk =>
              cases he : parseExpPart ep with
              | none =>
                simp [(parseExpPart_none_iff ep).1 he]
              | some e =>
                simp [mantissaOK_of_some hm, expPartOK_of_some he]
          | cons z t3 => simp

/-- Claim C6 (counterexample): the raw inputs `"inf"` and `"nan"` clean to
themselves, are parseable by Python `float`, and `_to_float` returns the
non-finite values without raising, contradicting the claim that inputs
denoting infinities or NaN fail. -/
theorem to_float_nonfinite_counterexample :
    to_float ("inf").data = some (PyFloat.inf false) ∧
      (PyFloat.inf false).isFinite = false ∧
      to_float ("nan").data = some PyFloat.nan ∧
      PyFloat.nan.isFinite = false := by
  decide

/-- Claim C6 (amended): `_to_float` fails (raises) exactly when the cleaned
input (ends stripped, every space and narrow no-break space removed, `,`
replaced by `.`) is not accepted by Python's `float` grammar; accepted
inputs denoting infinities or NaN succeed and return non-finite values
rather than failing. -/
theorem to_float_error_iff_grammar (x : Str) :
    to_float x = none ↔ floatGrammarOK (cleanCoord x) = false :=
  pyFloatCore_none_iff _ _

/-- Claim C7: the accepted decimal-separator and spacing variants of the
number 46.5191 (comma or dot separator, surrounding spaces, narrow no-break
spaces) all parse to the identical value 46.5191. -/
theorem to_float_variants :
    to_float ("46,5191").data = some (PyFloat.finite 465191 4) ∧
      to_float ("46.5191").data = some (PyFloat.finite 465191 4) ∧
      to_float (" 46.5191 ").data = some (PyFloat.finite 465191 4) ∧
      to_float (" 46,5191 ").data = some (PyFloat.finite 465191 4) ∧
      to_float (" 46 .5191 ").data = some (PyFloat.finite 465191 4) := by
  decide

/-- A row whose `is_deleted` cell is `"1 "` (trailing space): the spec's
normalization maps it to "1", but it differs from the raw string "1". -/
def rowTrailingOne : Row :=
  { id := "a1".data, name := "Pomme".data, lat := "46.5".data,
    lon := "6.6".data, seasons := "automne".data,
    is_deleted := "1 ".data, updated_at := "t0".data }

/-- Claim C1 (counterexample): a row whose `is_deleted` value normalizes to
"1" under the spec's `normalize_deleted_flag` rules (here `"1 "`) is not
excluded from `list_active()`: the source compares the raw string against
"1" only, so the row's record is returned. -/
theorem list_active_normalized_flag_counterexample :
    normalize_deleted_flag_spec (("1 ").data) = ("1").data ∧
      load_items [rowTrailingOne] =
        [{ id := "a1".data, name := "Pomme".data,
           lat := PyFloat.finite 465 1, lon := PyFloat.finite 66 1,
           seasons := ["automne".data] }] := by
  decide

/-- Claim C1 (amended): `list_active()` returns exactly the records built
from rows whose raw `is_deleted` string differs from "1" and whose
coordinates parse; a row is excluded by the deletion filter only when its
raw flag equals "1", so flags that merely normalize to "1" (such as "1 "
or "1,0") do not exclude a row. -/
theorem load_items_mem_iff (df : List Row) (it : Item) :
    it ∈ load_items df ↔
      ∃ r, r ∈ df ∧ ¬(r.is_deleted = ("1").data) ∧ rowItem r = some it := by
  simp only [load_items, List.mem_filterMap, List.mem_filter, bne_iff_ne, ne_eq]
  constructor
  · rintro ⟨r, ⟨hm, hd⟩, hi⟩; exact ⟨r, hm, hd, hi⟩
  · rintro ⟨r, hm, hd, hi⟩; exact ⟨r, ⟨hm, hd⟩, hi⟩

/-- A row with an unparseable latitude. -/
def rowBadLat : Row :=
  { id := "b1".data, name := "Kiwi".data, lat := "abc".data,
    lon := "6.6".data, seasons := [], is_deleted := "0".data,
    updated_at := "t1".data }

/-- Claim C8: a row either of whose coordinates fails to parse is skipped
locally: `load_items` (a total function: the `try/except` never lets the
error escape) returns on `pre ++ [r] ++ post` exactly what it returns on
`pre ++ post`, so every other row's record is unaffected. -/
theorem load_items_skips_bad_row (pre post : List Row) (r : Row)
    (h : to_float r.lat = none ∨ to_float r.lon = none) :
    load_items (pre ++ r :: post) = load_items (pre ++ post) := by
  have hri : rowItem r = none := by
    unfold rowItem
    rcases h with h | h
    · rw [h]
    · rw [h]
      cases to_float r.lat <;> rfl
  unfold load_items
  by_cases hd : (r.is_deleted != ("1").data) = true
  · simp [List.filter_append, List.filter_cons, hd, List.filterMap_append,
      List.filterMap_cons, hri]
  · simp [List.filter_append, List.filter_cons, hd, List.filterMap_append]

/-- Claim C8 (witness): a table holding a row with `lat = "abc"` followed by
a valid row lists the same records as the table without the bad row. -/
theorem load_items_skips_bad_row_witness :
    (to_float rowBadLat.lat = none ∨ to_float rowBadLat.lon = none) ∧
      load_items (rowBadLat :: [rowTrailingOne]) = load_items [rowTrailingOne] :=
  ⟨Or.inl (by decide),
    load_items_skips_bad_row [] [rowTrailingOne] rowBadLat (Or.inl (by decide))⟩

/-- Setting the element right after a block leaves the block intact. -/
theorem set_append_length (pre post : List (List Str)) (x y : List Str) :
    (pre ++ x :: post).set pre.length y = pre ++ y :: post := by
  induction pre with
  | nil => rfl
  | cons a t ih => simp [ih]

/-- Reading the element right after a block. -/
theorem getD_append_length (pre post : List (List Str)) (x : List Str) :
    (pre ++ x :: post).getD pre.length [] = x := by
  induction pre with
  | nil => rfl
  | cons a t ih => simpa using ih

/-- Padding a row to at most its own length is the identity. -/
theorem padTo_of_le (row : List Str) (n : Nat) (h : n ≤ row.length) :
    padTo row n = row := by
  unfold padTo
  rw [Nat.sub_eq_zero_of_le h, List.replicate_zero, List.append_nil]

/-- A 1-indexed cell write into data row `pre.length` (sheet row
`pre.length + 2`) rewrites exactly that row's cell `c`. -/
theorem update_cell_at (hdr : List Str) (pre post : List (List Str))
    (x : List Str) (c : Nat) (v : Str) (hc : c < x.length) :
    update_cell (hdr :: (pre ++ x :: post)) (pre.length + 2) (c + 1) v =
      hdr :: (pre ++ (x.set c v) :: post) := by
  unfold update_cell
  have h1 : pre.length + 2 - 1 = pre.length + 1 := rfl
  rw [h1]
  have h2 : (hdr :: (pre ++ x :: post)).getD (pre.length + 1) [] = x := by
    simpa using getD_append_length pre post x
  rw [h2, padTo_of_le x (c + 1) hc]
  have h3 : c + 1 - 1 = c := rfl
  rw [h3]
  show (hdr :: (pre ++ x :: post)).set (pre.length + 1) (x.set c v) = _
  simp [set_append_length pre post x (x.set c v)]

/-- The scan loop skips a block of non-matching rows. -/
theorem softDeleteLoop_append (idC dC uC : Nat) (item_id now : Str) (tbl : Sheet) :
    ∀ (pre rest : List (List Str)) (rIdx : Nat),
      (∀ x ∈ pre, ¬(x.getD idC [] = item_id)) →
      softDeleteLoop idC dC uC item_id now tbl rIdx (pre ++ rest) =
        softDeleteLoop idC dC uC item_id now tbl (rIdx + pre.length) rest
  | [], rest, rIdx, _ => by simp
  | x :: pre, rest, rIdx, h => by
    have hx : ¬(x.getD idC [] = item_id) := h x (List.mem_cons_self x pre)
    rw [List.cons_append, softDeleteLoop, if_neg hx,
        softDeleteLoop_append idC dC uC item_id now tbl pre rest (rIdx + 1)
          (fun z hz => h z (List.mem_cons_of_mem x hz))]
    have : rIdx + 1 + pre.length = rIdx + (x :: pre).length := by
      simp [List.length_cons]; omega
    rw [this]

/-- The scan loop at the first matching row: both cells written, cache
invalidated, loop stops. -/
theorem softDeleteLoop_found (idC dC uC : Nat) (item_id now : Str) (tbl : Sheet)
    (rIdx : Nat) (row : List Str) (rest : List (List Str))
    (h : row.getD idC [] = item_id) :
    softDeleteLoop idC dC uC item_id now tbl rIdx (row :: rest) =
      ⟨update_cell (update_cell tbl (rIdx + 1) (dC + 1) (("1").data))
          (rIdx + 1) (uC + 1) now,
       [WriteOp.updateCell (rIdx + 1) (dC + 1) (("1").data),
        WriteOp.updateCell (rIdx + 1) (uC + 1) now],
       true, false, false, none, none⟩ := by
  rw [softDeleteLoop, if_pos h]

/-- Shared shape of a successful soft delete: the columns are found, the
rows before the first match do not match, the matching row's cells are long
enough; the result updates exactly that row's two cells by two single-cell
writes and invalidates the cache. -/
theorem soft_delete_found (hdr : List Str) (pre post : List (List Str))
    (target : List Str) (item_id now : Str) (idC dC uC : Nat)
    (hid : pyIndexOf hdr (("id").data) = some idC)
    (hdel : pyIndexOf hdr (("is_deleted").data) = some dC)
    (hupd : pyIndexOf hdr (("updated_at").data) = some uC)
    (hpre : ∀ x ∈ pre, ¬(x.getD idC [] = item_id))
    (htgt : target.getD idC [] = item_id)
    (hlD : dC < target.length) (hlU : uC < target.length) :
    soft_delete_item (hdr :: (pre ++ target :: post)) item_id now =
      ⟨hdr :: (pre ++ ((target.set dC (("1").data)).set uC now) :: post),
       [WriteOp.updateCell (pre.length + 2) (dC + 1) (("1").data),
        WriteOp.updateCell (pre.length + 2) (uC + 1) now],
       true, false, false, none, none⟩ := by
  unfold soft_delete_item
  dsimp only
  rw [hid, hdel, hupd]
  dsimp only
  rw [softDeleteLoop_append idC dC uC item_id now _ pre (target :: post) 1 hpre,
      softDeleteLoop_found idC dC uC item_id now _ (1 + pre.length) target post htgt]
  have hr : 1 + pre.length + 1 = pre.length + 2 := by omega
  rw [hr]
  rw [update_cell_at hdr pre post target dC (("1").data) hlD]
  have hlD2 : uC < (target.set dC (("1").data)).length := by
    rwa [List.length_set]
  rw [update_cell_at hdr pre post (target.set dC (("1").data)) uC now hlD2]

/-- The canonical header written by `_gsheets_open` (line 92). -/
def hdrC : List Str :=
  ["id".data, "name".data, "lat".data, "lon".data, "seasons".data,
   "is_deleted".data, "updated_at".data]

/-- A concrete active data row with id "a1". -/
def rowC1 : List Str :=
  ["a1".data, "Pomme".data, "46.5".data, "6.6".data, "automne".data,
   "0".data, "t0".data]

/-- A concrete active data row with id "b2". -/
def rowC2 : List Str :=
  ["b2".data, "Kiwi".data, "46.6".data, "6.7".data, [], "0".data, "t0".data]

/-- A second row that shares the id "a1" with `rowC1`. -/
def rowDup : List Str :=
  ["a1".data, "Poire".data, "46.7".data, "6.8".data, [], "0".data, "t0".data]

/-- A concrete two-row worksheet. -/
def sheetC : Sheet := [hdrC, rowC1, rowC2]

/-- Claim C3 (counterexample): deleting the existing id "a1" issues TWO
separate single-cell `update_cell` writes (row 2 column 6, then row 2
column 7), not one single multi-cell update: the write trace has length
two, so it cannot be any one-element trace. -/
theorem soft_delete_two_writes_counterexample :
    (soft_delete_item sheetC (("a1").data) (("t9").data)).writes =
      [WriteOp.updateCell 2 6 (("1").data), WriteOp.updateCell 2 7 (("t9").data)] ∧
      (soft_delete_item sheetC (("a1").data) (("t9").data)).writes.length ≠ 1 := by
  decide

/-- Claim C3 (amended): when the header has the three columns and a row
matches the identifier, soft_delete changes exactly the `is_deleted` cell
(to "1") and the `updated_at` cell (to now) of the FIRST matching row — by
two consecutive single-cell updates rather than one multi-cell update —
and every other cell of that row, every other row and the header are
unchanged; the cache is invalidated and the call returns None. -/
theorem soft_delete_updates_exactly (hdr : List Str) (pre post : List (List Str))
    (target : List Str) (item_id now : Str) (idC dC uC : Nat)
    (hid : pyIndexOf hdr (("id").data) = some idC)
    (hdel : pyIndexOf hdr (("is_deleted").data) = some dC)
    (hupd : pyIndexOf hdr (("updated_at").data) = some uC)
    (hpre : ∀ x ∈ pre, ¬(x.getD idC [] = item_id))
    (htgt : target.getD idC [] = item_id)
    (hlD : dC < target.length) (hlU : uC < target.length) :
    soft_delete_item (hdr :: (pre ++ target :: post)) item_id now =
      ⟨hdr :: (pre ++ ((target.set dC (("1").data)).set uC now) :: post),
       [WriteOp.updateCell (pre.length + 2) (dC + 1) (("1").data),
        WriteOp.updateCell (pre.length + 2) (uC + 1) now],
       true, false, false, none, none⟩ :=
  soft_delete_found hdr pre post target item_id now idC dC uC
    hid hdel hupd hpre htgt hlD hlU

/-- Claim C3 (witness): the amended theorem at the concrete sheet, deleting
id "b2" (second data row: cells (3,6) and (3,7) written). -/
theorem soft_delete_updates_exactly_witness :
    (pyIndexOf hdrC (("id").data) = some 0 ∧
      pyIndexOf hdrC (("is_deleted").data) = some 5 ∧
      pyIndexOf hdrC (("updated_at").data) = some 6 ∧
      (∀ x ∈ [rowC1], ¬(x.getD 0 [] = ("b2").data)) ∧
      rowC2.getD 0 [] = ("b2").data ∧ 5 < rowC2.length ∧ 6 < rowC2.length) ∧
    soft_delete_item (hdrC :: ([rowC1] ++ rowC2 :: [])) (("b2").data) (("t9").data) =
      ⟨hdrC :: ([rowC1] ++ ((rowC2.set 5 (("1").data)).set 6 (("t9").data)) :: []),
       [WriteOp.updateCell 3 6 (("1").data), WriteOp.updateCell 3 7 (("t9").data)],
       true, false, false, none, none⟩ :=
  ⟨⟨by decide, by decide, by decide, by decide, by decide, by decide, by decide⟩,
    soft_delete_updates_exactly hdrC [rowC1] [] rowC2 (("b2").data) (("t9").data)
      0 5 6 (by decide) (by decide) (by decide) (by decide) (by decide)
      (by decide) (by decide)⟩

/-- Claim C4 (counterexample): on a missing id, `soft_delete_item` does not
return a failure indicator and does not raise `NotFoundError`: it raises
nothing (`exn = none`) and returns the same `None` as a successful call, so
the caller cannot distinguish failure from success by the call's outcome;
the signal is only a displayed warning, and the table is unchanged. -/
theorem soft_delete_not_found_signal_counterexample :
    (soft_delete_item sheetC (("zzz").data) (("t9").data)).exn = none ∧
      (soft_delete_item sheetC (("zzz").data) (("t9").data)).ret =
        (soft_delete_item sheetC (("a1").data) (("t9").data)).ret ∧
      (soft_delete_item sheetC (("zzz").data) (("t9").data)).sheet = sheetC ∧
      (soft_delete_item sheetC (("zzz").data) (("t9").data)).warned = true := by
  decide

/-- Shared shape of a soft delete whose scan completes without a match:
warning shown, nothing written, nothing invalidated. -/
theorem soft_delete_scan_misses (hdr : List Str) (rows : List (List Str))
    (item_id now : Str) (idC dC uC : Nat)
    (hid : pyIndexOf hdr (("id").data) = some idC)
    (hdel : pyIndexOf hdr (("is_deleted").data) = some dC)
    (hupd : pyIndexOf hdr (("updated_at").data) = some uC)
    (hno : ∀ x ∈ rows, ¬(x.getD idC [] = item_id)) :
    soft_delete_item (hdr :: rows) item_id now =
      ⟨hdr :: rows, [], false, true, false, none, none⟩ := by
  unfold soft_delete_item
  dsimp only
  rw [hid, hdel, hupd]
  dsimp only
  have h := softDeleteLoop_append idC dC uC item_id now (hdr :: rows) rows [] 1 hno
  rw [List.append_nil] at h
  rw [h, softDeleteLoop]

/-- Claim C4 (amended): when no row's id matches, soft_delete performs no
write and leaves the table unchanged, and consistently signals the failure
by displaying a warning ("ID non trouvé ; rien supprimé."); it raises no
exception and returns None — the same return value as on success — so the
table-unchanged half of the claim holds while the claimed
failure-return/NotFoundError does not exist. -/
theorem soft_delete_not_found (hdr : List Str) (rows : List (List Str))
    (item_id now : Str) (idC dC uC : Nat)
    (hid : pyIndexOf hdr (("id").data) = some idC)
    (hdel : pyIndexOf hdr (("is_deleted").data) = some dC)
    (hupd : pyIndexOf hdr (("updated_at").data) = some uC)
    (hno : ∀ x ∈ rows, ¬(x.getD idC [] = item_id)) :
    soft_delete_item (hdr :: rows) item_id now =
      ⟨hdr :: rows, [], false, true, false, none, none⟩ :=
  soft_delete_scan_misses hdr rows item_id now idC dC uC hid hdel hupd hno

/-- Claim C4 (witness): deleting the absent id "zzz" from the concrete
sheet warns and leaves everything unchanged. -/
theorem soft_delete_not_found_witness :
    (pyIndexOf hdrC (("id").data) = some 0 ∧
      pyIndexOf hdrC (("is_deleted").data) = some 5 ∧
      pyIndexOf hdrC (("updated_at").data) = some 6 ∧
      (∀ x ∈ [rowC1, rowC2], ¬(x.getD 0 [] = ("zzz").data))) ∧
    soft_delete_item (hdrC :: [rowC1, rowC2]) (("zzz").data) (("t9").data) =
      ⟨hdrC :: [rowC1, rowC2], [], false, true, false, none, none⟩ :=
  ⟨⟨by decide, by decide, by decide, by decide⟩,
    soft_delete_not_found hdrC [rowC1, rowC2] (("zzz").data) (("t9").data)
      0 5 6 (by decide) (by decide) (by decide) (by decide)⟩

/-- Claim C9: with two or more rows sharing the target id, soft_delete
updates only the FIRST matching row in storage order and stops scanning:
the write trace names only that row's index, and every later row —
including the duplicate `dup` — is returned byte-for-byte unchanged. -/
theorem soft_delete_first_match_only (hdr : List Str)
    (pre mid post : List (List Str)) (target dup : List Str)
    (item_id now : Str) (idC dC uC : Nat)
    (hid : pyIndexOf hdr (("id").data) = some idC)
    (hdel : pyIndexOf hdr (("is_deleted").data) = some dC)
    (hupd : pyIndexOf hdr (("updated_at").data) = some uC)
    (hpre : ∀ x ∈ pre, ¬(x.getD idC [] = item_id))
    (htgt : target.getD idC [] = item_id)
    (hdup : dup.getD idC [] = item_id)
    (hlD : dC < target.length) (hlU : uC < target.length) :
    soft_delete_item (hdr :: (pre ++ target :: (mid ++ dup :: post))) item_id now =
      ⟨hdr :: (pre ++ ((target.set dC (("1").data)).set uC now) ::
          (mid ++ dup :: post)),
       [WriteOp.updateCell (pre.length + 2) (dC + 1) (("1").data),
        WriteOp.updateCell (pre.length + 2) (uC + 1) now],
       true, false, false, none, none⟩ :=
  soft_delete_found hdr pre (mid ++ dup :: post) target item_id now idC dC uC
    hid hdel hupd hpre htgt hlD hlU

/-- Claim C9 (witness): deleting "a1" from a sheet where `rowC1` and
`rowDup` both carry id "a1" updates only `rowC1`; `rowDup` keeps its
previous `is_deleted` and `updated_at` cells. -/
theorem soft_delete_first_match_only_witness :
    (rowC1.getD 0 [] = ("a1").data ∧ rowDup.getD 0 [] = ("a1").data) ∧
    soft_delete_item (hdrC :: ([] ++ rowC1 :: ([rowC2] ++ rowDup :: [])))
        (("a1").data) (("t9").data) =
      ⟨hdrC :: ([] ++ ((rowC1.set 5 (("1").data)).set 6 (("t9").data)) ::
          ([rowC2] ++ rowDup :: [])),
       [WriteOp.updateCell 2 6 (("1").data), WriteOp.updateCell 2 7 (("t9").data)],
       true, false, false, none, none⟩ :=
  ⟨⟨by decide, by decide⟩,
    soft_delete_first_match_only hdrC [] [rowC2] [] rowC1 rowDup
      (("a1").data) (("t9").data) 0 5 6 (by decide) (by decide) (by decide)
      (by decide) (by decide) (by decide) (by decide) (by decide)⟩

/-- Claim C2: from any state with a cold cache, (i) the first
`list_active()` issues a remote read; (ii) a second `list_active()` within
the 10-second validity window with no intervening write returns identical
data and issues no remote read; (iii) after `add`, the immediately
following `list_active()` — still within the window — issues a fresh
remote read and returns exactly the listing of the post-write sheet, the
write having cleared the cache before returning; (iv) likewise after a
successful `soft_delete` (one that found its row, hence invalidated). -/
theorem cache_consistency (sh : Sheet) (t0 dt : Nat) (hdt : dt < 10)
    (uuid name latS lonS : Str) (seasons : List Str) (iso item_id : Str)
    (hfound : (soft_delete_item sh item_id iso).invalidated = true) :
    (list_active (Sys.mk sh none t0)).2.2 = true ∧
    (list_active (tick (list_active (Sys.mk sh none t0)).2.1 dt)).1 =
      (list_active (Sys.mk sh none t0)).1 ∧
    (list_active (tick (list_active (Sys.mk sh none t0)).2.1 dt)).2.2 = false ∧
    (list_active (tick (add_item (list_active (Sys.mk sh none t0)).2.1
        uuid name latS lonS seasons iso) dt)).1 =
      load_items (recordsToDf ((add_item (list_active (Sys.mk sh none t0)).2.1
        uuid name latS lonS seasons iso).sheet)) ∧
    (list_active (tick (add_item (list_active (Sys.mk sh none t0)).2.1
        uuid name latS lonS seasons iso) dt)).2.2 = true ∧
    (list_active (tick (soft_delete_sys (list_active (Sys.mk sh none t0)).2.1
        item_id iso).1 dt)).1 =
      load_items (recordsToDf ((soft_delete_sys
        (list_active (Sys.mk sh none t0)).2.1 item_id iso).1.sheet)) ∧
    (list_active (tick (soft_delete_sys (list_active (Sys.mk sh none t0)).2.1
        item_id iso).1 dt)).2.2 = true := by
  have hs1 : (list_active (Sys.mk sh none t0)).2.1 =
      Sys.mk sh (some (recordsToDf sh, t0)) t0 := rfl
  have hsub : t0 + dt - t0 = dt := by omega
  refine ⟨rfl, ?_, ?_, ?_, ?_, ?_, ?_⟩
  · rw [hs1]; simp [list_active, read_df, tick, hsub, hdt]
  · rw [hs1]; simp [list_active, read_df, tick, hsub, hdt]
  · rw [hs1]; simp [list_active, read_df, tick, add_item]
  · rw [hs1]; simp [list_active, read_df, tick, add_item]
  · rw [hs1]; simp [list_active, read_df, tick, soft_delete_sys, hfound]
  · rw [hs1]; simp [list_active, read_df, tick, soft_delete_sys, hfound]

/-- Claim C2 (witness): the cache scenario run on the concrete two-row
sheet at time 100, with a 3-second gap and the existing id "a1". -/
theorem cache_consistency_witness :
    ((3 : Nat) < 10 ∧
      (soft_delete_item sheetC (("a1").data) (("t9").data)).invalidated = true) ∧
    ((list_active (Sys.mk sheetC none 100)).2.2 = true ∧
      (list_active (tick (list_active (Sys.mk sheetC none 100)).2.1 3)).1 =
        (list_active (Sys.mk sheetC none 100)).1 ∧
      (list_active (tick (list_active (Sys.mk sheetC none 100)).2.1 3)).2.2 = false ∧
      (list_active (tick (add_item (list_active (Sys.mk sheetC none 100)).2.1
          (("u9").data) (("Noix").data) (("46.2").data) (("6.1").data)
          [("automne").data] (("t9").data)) 3)).1 =
        load_items (recordsToDf ((add_item (list_active (Sys.mk sheetC none 100)).2.1
          (("u9").data) (("Noix").data) (("46.2").data) (("6.1").data)
          [("automne").data] (("t9").data)).sheet)) ∧
      (list_active (tick (add_item (list_active (Sys.mk sheetC none 100)).2.1
          (("u9").data) (("Noix").data) (("46.2").data) (("6.1").data)
          [("automne").data] (("t9").data)) 3)).2.2 = true ∧
      (list_active (tick (soft_delete_sys (list_active (Sys.mk sheetC none 100)).2.1
          (("a1").data) (("t9").data)).1 3)).1 =
        load_items (recordsToDf ((soft_delete_sys
          (list_active (Sys.mk sheetC none 100)).2.1 (("a1").data)
          (("t9").data)).1.sheet)) ∧
      (list_active (tick (soft_delete_sys (list_active (Sys.mk sheetC none 100)).2.1
          (("a1").data) (("t9").data)).1 3)).2.2 = true) :=
  ⟨⟨by decide, by decide⟩,
    cache_consistency sheetC 100 3 (by decide) (("u9").data) (("Noix").data)
      (("46.2").data) (("6.1").data) [("automne").data] (("t9").data)
      (("a1").data) (by decide)⟩

/-- Claim C10: when the soft delete finds no matching row, or the header
lacks one of the `id`/`is_deleted`/`updated_at` columns, it performs no
write, leaves the sheet unchanged and does not clear the cache; a
subsequent `list_active()` while the cached snapshot is still inside the
validity window is served from that previously cached snapshot with no
remote read. -/
theorem soft_delete_noop_keeps_cache (hdr : List Str) (rows : List (List Str))
    (df : List Row) (ts n : Nat) (item_id iso : Str)
    (hno : pyIndexOf hdr (("id").data) = none ∨
           pyIndexOf hdr (("is_deleted").data) = none ∨
           pyIndexOf hdr (("updated_at").data) = none ∨
           ∀ x ∈ rows,
             ¬(x.getD ((pyIndexOf hdr (("id").data)).getD 0) [] = item_id))
    (hwin : n - ts < 10) :
    (soft_delete_sys (Sys.mk (hdr :: rows) (some (df, ts)) n) item_id iso).2.writes
        = [] ∧
    (soft_delete_sys (Sys.mk (hdr :: rows) (some (df, ts)) n) item_id
        iso).2.invalidated = false ∧
    (soft_delete_sys (Sys.mk (hdr :: rows) (some (df, ts)) n) item_id
        iso).1.sheet = hdr :: rows ∧
    (soft_delete_sys (Sys.mk (hdr :: rows) (some (df, ts)) n) item_id
        iso).1.cache = some (df, ts) ∧
    list_active (soft_delete_sys (Sys.mk (hdr :: rows) (some (df, ts)) n)
        item_id iso).1 =
      (load_items df,
       (soft_delete_sys (Sys.mk (hdr :: rows) (some (df, ts)) n) item_id iso).1,
       false) := by
  have core : soft_delete_item (hdr :: rows) item_id iso =
      ⟨hdr :: rows, [], false, true, false, none, none⟩ ∨
      soft_delete_item (hdr :: rows) item_id iso =
      ⟨hdr :: rows, [], false, false, true, none, none⟩ := by
    rcases hno with h | h | h | h
    · right; unfold soft_delete_item; dsimp only; rw [h]
    · right; unfold soft_delete_item; dsimp only
      cases hid2 : pyIndexOf hdr (("id").data) with
      | none => rfl
      | some i => rw [h]
    · right; unfold soft_delete_item; dsimp only
      cases hid2 : pyIndexOf hdr (("id").data) with
      | none => rfl
      | some i =>
        cases hd2 : pyIndexOf hdr (("is_deleted").data) with
        | none => rfl
        | some d => rw [h]
    · cases hid2 : pyIndexOf hdr (("id").data) with
      | none => right; unfold soft_delete_item; dsimp only; rw [hid2]
      | some i =>
        cases hd2 : pyIndexOf hdr (("is_deleted").data) with
        | none => right; unfold soft_delete_item; dsimp only; rw [hid2, hd2]
        | some d =>
          cases hu2 : pyIndexOf hdr (("updated_at").data) with
          | none => right; unfold soft_delete_item; dsimp only; rw [hid2, hd2, hu2]
          | some u =>
            left
            refine soft_delete_scan_misses hdr rows item_id iso i d u
              hid2 hd2 hu2 ?_
            intro x hx
            have hxx := h x hx
            rw [hid2] at hxx
            simpa using hxx
  rcases core with hc | hc <;>
    exact ⟨by simp [soft_delete_sys, hc],
           by simp [soft_delete_sys, hc],
           by simp [soft_delete_sys, hc],
           by simp [soft_delete_sys, hc],
           by simp [soft_delete_sys, hc, list_active, read_df, hwin]⟩

/-- Claim C10 (witness): deleting the absent id "zzz" at time 105 with a
snapshot cached at time 100 keeps the cache entry, and the following
listing is served from it without a remote read. -/
theorem soft_delete_noop_keeps_cache_witness :
    ((pyIndexOf hdrC (("id").data) = none ∨
        pyIndexOf hdrC (("is_deleted").data) = none ∨
        pyIndexOf hdrC (("updated_at").data) = none ∨
        ∀ x ∈ [rowC1, rowC2],
          ¬(x.getD ((pyIndexOf hdrC (("id").data)).getD 0) [] = ("zzz").data)) ∧
      (105 : Nat) - 100 < 10) ∧
    ((soft_delete_sys (Sys.mk (hdrC :: [rowC1, rowC2])
        (some (recordsToDf sheetC, 100)) 105) (("zzz").data)
        (("t9").data)).2.writes = [] ∧
      (soft_delete_sys (Sys.mk (hdrC :: [rowC1, rowC2])
        (some (recordsToDf sheetC, 100)) 105) (("zzz").data)
        (("t9").data)).2.invalidated = false ∧
      (soft_delete_sys (Sys.mk (hdrC :: [rowC1, rowC2])
        (some (recordsToDf sheetC, 100)) 105) (("zzz").data)
        (("t9").data)).1.sheet = hdrC :: [rowC1, rowC2] ∧
      (soft_delete_sys (Sys.mk (hdrC :: [rowC1, rowC2])
        (some (recordsToDf sheetC, 100)) 105) (("zzz").data)
        (("t9").data)).1.cache = some (recordsToDf sheetC, 100) ∧
      list_active (soft_delete_sys (Sys.mk (hdrC :: [rowC1, rowC2])
        (some (recordsToDf sheetC, 100)) 105) (("zzz").data) (("t9").data)).1 =
        (load_items (recordsToDf sheetC),
         (soft_delete_sys (Sys.mk (hdrC :: [rowC1, rowC2])
           (some (recordsToDf sheetC, 100)) 105) (("zzz").data)
           (("t9").data)).1,
         false)) :=
  ⟨⟨Or.inr (Or.inr (Or.inr (by decide))), by decide⟩,
    soft_delete_noop_keeps_cache hdrC [rowC1, rowC2] (recordsToDf sheetC)
      100 105 (("zzz").data) (("t9").data)
      (Or.inr (Or.inr (Or.inr (by decide)))) (by decide)⟩

end CarteDesFruits
